import Mathlib

/-!
Verification of the email-clean pipeline (backend/clean.py, backend/database.py,
backend/services/llm_service.py, backend/services/gmail_label_service.py).

The Python code is shallowly embedded: pure record manipulation becomes Lean
functions over explicit state; external I/O (the OpenAI oracle, the Gmail API,
the database commits) is passed in as explicit parameters describing the
behaviour the environment exhibited during one execution.  Python string
truthiness (`x or y`) is modelled by `pyOrS` / `truthyS`; `None` becomes
`Option`; float confidences become `Rat`.
-/

namespace EmailClean

/-- Python `a or b` for an optional string `a` with fallback `b`:
the fallback is used when `a` is `None` or the empty string (falsy). -/
def pyOrS : Option String → String → String
  | some s, d => if s = "" then d else s
  | none, d => d

/-- Python truthiness of an `Optional[str]`. -/
def truthyS : Option String → Bool
  | some s => s != ""
  | none => false

/-- Substring search on the character list (Python `sub in s`). -/
def containsSeq (needle : List Char) : List Char → Bool
  | [] => needle.isEmpty
  | c :: rest => needle.isPrefixOf (c :: rest) || containsSeq needle rest

def strContains (s sub : String) : Bool :=
  containsSeq sub.toList s.toList

/-- Python `str.lower()` restricted to ASCII case mapping. -/
def strToLower (s : String) : String :=
  ⟨s.toList.map Char.toLower⟩

/-- Split a list into consecutive chunks of size `n+1`
(Python `l[i:i+size]` slicing loops use chunks of `size = n+1`).
Structural recursion on a fuel that starts at the list length; since every step
consumes at least one element, the fuel-exhausted fallback (which returns the
remainder as one chunk, keeping the flatten identity) is never reached. -/
def chunksOfSuccAux (n : Nat) : Nat → List α → List (List α)
  | _, [] => []
  | 0, l => [l]
  | fuel + 1, x :: xs => (x :: xs.take n) :: chunksOfSuccAux n fuel (xs.drop n)

def chunksOfSucc (n : Nat) (l : List α) : List (List α) :=
  chunksOfSuccAux n l.length l

/-! ## Classification engine (services/llm_service.py) -/

/-- The keys of the `CATEGORIES` dict in llm_service.py, in declaration order. -/
def CATEGORY_KEYS : List String :=
  ["IMPORTANT_ACTION", "FYI_READ_LATER", "MARKETING", "AUTOMATED", "LOW_VALUE_NOISE", "UNKNOWN"]

/-- A raw fetched email record as consumed by classification/ingestion.
`fetch_emails` always populates `id`; an absent/empty id is modelled as `""`
(both are falsy in the Python guards that matter). -/
structure Email where
  id : String
  subject : String
  snippet : String
deriving DecidableEq

/-- One classification outcome dict as produced by `classify_single_batch`. -/
structure Classification where
  email_id : String
  email_subject : String
  category : String
  confidence : Rat
  reason : String
deriving DecidableEq

/-- One element of the JSON array parsed out of the oracle response:
either not a dict, or a dict with the three optional fields. -/
inductive JRecord where
  | notDict : JRecord
  | record (category : Option String) (confidence : Option Rat) (reason : Option String) : JRecord
deriving DecidableEq

/-- Field-filling and taxonomy validation applied to one parsed record
(llm_service.py lines 241-268): missing fields get defaults, a category
outside `CATEGORIES` is coerced to `UNKNOWN` with confidence 0. -/
def validateRecord : JRecord → String × Rat × String
  | .notDict => ("UNKNOWN", 0, "Invalid classification format from LLM")
  | .record cat conf reason =>
    let c := cat.getD "UNKNOWN"
    let cf := conf.getD 0
    let rs := reason.getD "No reason provided by LLM"
    if c ∈ CATEGORY_KEYS then (c, cf, rs) else ("UNKNOWN", 0, rs)

/-- The per-email ERROR outcome built in the exception handlers of
`classify_single_batch` / `classify_emails_batch`. -/
def errorOutcome (msg : String) (e : Email) : Classification :=
  { email_id := e.id, email_subject := e.subject, category := "ERROR", confidence := 0,
    reason := "Classification error: " ++ msg }

/-- A validated record, with the email id/subject attached (lines 266-268). -/
def processedOutcome (e : Email) (r : JRecord) : Classification :=
  { email_id := e.id, email_subject := e.subject, category := (validateRecord r).1,
    confidence := (validateRecord r).2.1, reason := (validateRecord r).2.2 }

/-- The UNKNOWN padding outcome for an email missing from a short response
(lines 276-283). -/
def paddingOutcome (e : Email) : Classification :=
  { email_id := e.id, email_subject := e.subject, category := "UNKNOWN", confidence := 0,
    reason := "LLM did not return classification for this email" }

/-- Rate-limit detection on an exception's string form (lines 187-188). -/
def isRateLimitError (e : String) : Bool :=
  strContains e "429" || strContains (strToLower e) "rate_limit"
    || strContains (strToLower e) "rate limit"

/-- One execution's oracle behaviour for a sub-batch, indexed by attempt number:
outer `Except` = the chat-completions call raised (retryable when rate-limited);
inner `Except` = the returned content failed JSON/array validation (which raises
past the retry loop into the outer handler). -/
abbrev OracleAttempts := Nat → Except String (Except String (List JRecord))

/-- The `for attempt in range(3)` retry loop of `classify_single_batch`
(lines 163-197): retry only when the error is a rate limit and
`attempt < max_retries - 1 = 2`. `fuel` counts the remaining retries. -/
def oracleRetryLoop (attempts : OracleAttempts) : Nat → Nat → Except String (Except String (List JRecord))
  | fuel, attempt =>
    match fuel, attempts attempt with
    | _, .ok r => .ok r
    | 0, .error e => .error e
    | fuel' + 1, .error e =>
      if isRateLimitError e && attempt < 2 then oracleRetryLoop attempts fuel' (attempt + 1)
      else .error e

def oracleCallWithRetries (attempts : OracleAttempts) : Except String (Except String (List JRecord)) :=
  oracleRetryLoop attempts 2 0

/-- The placeholder-API-key guard at the top of `classify_single_batch`. -/
def apiKeyInvalid (k : String) : Bool :=
  k = "" || k = "sk-placeholder-for-now" || k = "placeholder"

def apiKeyErrorMsg : String :=
  "OpenAI API key not configured. Please add your OPENAI_API_KEY to backend/.env file. Get one from https://platform.openai.com/api-keys"

/-- `classify_single_batch(batch, ...)`: every failure path (bad API key, an
irrecoverable call error, a parse error) lands in the final `except` handler and
yields one ERROR outcome per email; a parsed array is validated entrywise
(extra entries beyond the batch size are dropped by the `j < expected_count`
guard) and padded up to the batch size with UNKNOWN outcomes. -/
def classify_single_batch (apiKey : String) (attempts : OracleAttempts) (batch : List Email) :
    List Classification :=
  if apiKeyInvalid apiKey then
    batch.map (errorOutcome apiKeyErrorMsg)
  else
    match oracleCallWithRetries attempts with
    | .error e => batch.map (errorOutcome e)
    | .ok (.error parseErr) => batch.map (errorOutcome parseErr)
    | .ok (.ok recs) =>
      (batch.zip recs).map (fun p => processedOutcome p.1 p.2)
        ++ (batch.drop recs.length).map paddingOutcome

/-- `batch_size = 20` chunking of `classify_emails_batch` (line 321). -/
def batchesOf20 (emails : List Email) : List (List Email) :=
  chunksOfSucc 19 emails

/-- `classify_emails_batch(emails)`: sub-batches of 20 are dispatched to a
10-worker pool and collected `as_completed`; `order` records the completion
order of the sub-batch indices during one execution (theorems quantify over any
permutation of the indices).  `attempts i` is the oracle behaviour of sub-batch
`i`.  `classify_single_batch` never raises (it catches everything), so the
executor's own per-future error branch is unreachable. -/
def classify_emails_batch (apiKey : String) (attempts : Nat → OracleAttempts)
    (order : List Nat) (emails : List Email) : List Classification :=
  if emails.isEmpty then []
  else
    (order.map (fun i =>
      classify_single_batch apiKey (attempts i) ((batchesOf20 emails).getD i []))).flatten

/-- Sample data used in witnesses. -/
def em1 : Email := { id := "m1", subject := "s1", snippet := "x" }

def em2 : Email := { id := "m2", subject := "s2", snippet := "y" }

/-- An oracle behaviour whose call always succeeds with an empty JSON array. -/
def okEmptyAttempts : OracleAttempts := fun _ => .ok (.ok [])

/-- An oracle behaviour whose call always raises a non-rate-limit error. -/
def failAttempts : OracleAttempts := fun _ => .error "boom"

/-! ## Labeling engine (services/gmail_label_service.py) -/

/-- One per-email result dict appended by `apply_labels_batch`. -/
structure LabelItemResult where
  email_id : String
  label : String
  success : Bool
  error : Option String
deriving DecidableEq

/-- The dict returned by `apply_labels_batch` (the synthesized failure dicts in
clean.py reuse the same shape; fields they omit are set to zero/none and are
never read). -/
structure LabelResult where
  success_count : Nat
  failed_count : Nat
  results : List LabelItemResult
  total : Nat
  error : Option String
deriving DecidableEq

/-- `get_label_name`: category key if in `CATEGORIES`, else `UNKNOWN`. -/
def get_label_name (category : String) : String :=
  if category ∈ CATEGORY_KEYS then category else "UNKNOWN"

/-- Appending an email id to its label's bucket in `emails_by_label`
(dict insertion order preserved, as in Python). -/
def insertGrouped (acc : List (String × List String)) (name id : String) :
    List (String × List String) :=
  if acc.any (fun g => g.1 == name) then
    acc.map (fun g => if g.1 = name then (g.1, g.2 ++ [id]) else g)
  else acc ++ [(name, [id])]

/-- Body of the grouping loop of `apply_labels_batch` (lines 202-215):
classifications with a falsy email_id are skipped; `category` defaults through
`get_label_name`. -/
def groupStep (acc : List (String × List String)) (c : Classification) :
    List (String × List String) :=
  if c.email_id = "" then acc
  else insertGrouped acc (get_label_name c.category) c.email_id

def groupByLabel (cs : List Classification) : List (String × List String) :=
  cs.foldl groupStep []

/-- Accumulator of the label-application loop: the two counters plus the
growing results list. -/
structure LabelAcc where
  success_count : Nat
  failed_count : Nat
  results : List LabelItemResult
deriving DecidableEq

def labelFailResult (labelName id : String) : LabelItemResult :=
  { email_id := id, label := labelName, success := false,
    error := some ("Label ID not found for " ++ labelName) }

def chunkSuccessResults (labelName : String) (chunk : List String) : List LabelItemResult :=
  chunk.map (fun id => { email_id := id, label := labelName, success := true, error := none })

def chunkFailResults (labelName msg : String) (chunk : List String) : List LabelItemResult :=
  chunk.map (fun id => { email_id := id, label := labelName, success := false, error := some msg })

/-- One `batchModify` call for one chunk of up to 1000 ids: `chunkOk label i`
tells whether the call for chunk index `i` of `label` succeeded during this
execution, and `chunkErrMsg label i` is the raised exception's text
otherwise. -/
def chunkStep (labelName : String) (chunkOk : String → Nat → Bool)
    (chunkErrMsg : String → Nat → String) (a : LabelAcc) (p : Nat × List String) :
    LabelAcc :=
  if chunkOk labelName p.1 then
    { a with
        success_count := a.success_count + p.2.length
        results := a.results ++ chunkSuccessResults labelName p.2 }
  else
    { a with
        failed_count := a.failed_count + p.2.length
        results := a.results ++ chunkFailResults labelName (chunkErrMsg labelName p.1) p.2 }

/-- The inner `for i in range(0, len(email_ids), batch_size)` loop. -/
def applyChunks (labelName : String) (chunkOk : String → Nat → Bool)
    (chunkErrMsg : String → Nat → String) (chunks : List (Nat × List String))
    (acc : LabelAcc) : LabelAcc :=
  chunks.foldl (chunkStep labelName chunkOk chunkErrMsg) acc

/-- The body of the outer `for label_name, email_ids in emails_by_label.items()`
loop: a missing label id fails the whole group, otherwise the group is applied
chunk by chunk. -/
def labelGroupStep (labelIds : String → Option String) (chunkOk : String → Nat → Bool)
    (chunkErrMsg : String → Nat → String) (a : LabelAcc) (g : String × List String) :
    LabelAcc :=
  match labelIds g.1 with
  | none =>
    { a with
        failed_count := a.failed_count + g.2.length
        results := a.results ++ g.2.map (labelFailResult g.1) }
  | some _ => applyChunks g.1 chunkOk chunkErrMsg (chunksOfSucc 999 g.2).enum a

/-- `apply_labels_batch(user, emails, classifications, db)` given the remote
behaviour of this execution: `labelIds` is the label map produced by
`ensure_labels_exist` (None = the label could not be created/found). -/
def apply_labels_batch (labelIds : String → Option String)
    (chunkOk : String → Nat → Bool) (chunkErrMsg : String → Nat → String)
    (cs : List Classification) : LabelResult :=
  let acc := (groupByLabel cs).foldl (labelGroupStep labelIds chunkOk chunkErrMsg)
    { success_count := 0, failed_count := 0, results := [] }
  { success_count := acc.success_count
    failed_count := acc.failed_count
    results := acc.results
    total := acc.results.length
    error := none }

/-! ### Counter consistency (C10) -/

def labelAccOk (a : LabelAcc) : Prop :=
  a.success_count = (a.results.filter (fun r => r.success)).length
  ∧ a.failed_count = (a.results.filter (fun r => !r.success)).length

/-! ### Coverage: every classification with a non-empty id yields a result -/

def groupIds (acc : List (String × List String)) : List String :=
  acc.flatMap (fun g => g.2)

/-- The per-group block of results appended by the outer labeling loop. -/
def groupResults (labelIds : String → Option String) (chunkOk : String → Nat → Bool)
    (chunkErrMsg : String → Nat → String) (g : String × List String) :
    List LabelItemResult :=
  match labelIds g.1 with
  | none => g.2.map (labelFailResult g.1)
  | some _ => (chunksOfSucc 999 g.2).enum.flatMap (fun p =>
      if chunkOk g.1 p.1 then chunkSuccessResults g.1 p.2
      else chunkFailResults g.1 (chunkErrMsg g.1 p.1) p.2)

/-! ## Run/Item orchestrator (backend/clean.py) and data model (backend/database.py) -/

inductive ItemStatus where
  | NEW : ItemStatus
  | PROCESSING : ItemStatus
  | SUCCESS : ItemStatus
  | FAILED : ItemStatus
deriving DecidableEq

inductive RunStatus where
  | NEW : RunStatus
  | PROCESSING : RunStatus
  | COMPLETED : RunStatus
  | FAILED : RunStatus
deriving DecidableEq

/-- One `EmailItem` row as manipulated by clean.py.  It carries the attributes
the orchestration code reads and writes — including `attempt_count` and
`last_error`, which clean.py uses throughout; whether the persisted model in
database.py actually declares those columns is recorded separately in
`EmailItemModelAttrs` below (claim C1). -/
structure EmailItemR where
  user_id : Nat
  run_id : Nat
  gmail_message_id : String
  status : ItemStatus
  category : Option String
  confidence : Option Rat
  reason : Option String
  attempt_count : Nat
  last_error : Option String
deriving DecidableEq

/-! ### The persisted data model (database.py) and SQLAlchemy's constructor -/

/-- The class attributes of the mapped `EmailItem` model declared in
database.py lines 84-119: the column attributes plus the two relationship
attributes.  There is no `attempt_count` and no `last_error` column. -/
def EmailItemModelAttrs : List String :=
  ["id", "user_id", "run_id", "gmail_message_id", "status", "category", "confidence",
   "reason", "created_at", "updated_at", "user", "run"]

/-- The keyword arguments of the `EmailItem(...)` constructor call in
`start_clean`'s ingestion loop (clean.py lines 119-126). -/
def ingestItemKwargs : List String :=
  ["user_id", "run_id", "gmail_message_id", "status", "attempt_count", "last_error"]

/-- The class attributes of the mapped `EmailRun` model declared in
database.py lines 62-81: the column attributes plus the two relationship
attributes.  There is no `requested_count` column. -/
def EmailRunModelAttrs : List String :=
  ["id", "user_id", "status", "started_at", "finished_at", "error", "user", "email_items"]

/-- The keyword arguments of the `EmailRun(...)` constructor call at clean.py
line 62: `user_id=user.id, requested_count=request.count, status=NEW`. -/
def startRunKwargs : List String :=
  ["user_id", "requested_count", "status"]

/-- SQLAlchemy's declarative default `__init__`: every keyword argument must be
an existing attribute of the mapped class, otherwise it raises
`TypeError("%r is an invalid keyword argument for %s")`. -/
def declarativeInitOk (attrs kwargs : List String) : Bool :=
  kwargs.all (fun k => attrs.contains k)

/-- The text of the TypeError raised by the `EmailRun(...)` call at clean.py
line 62 (`requested_count` is not an attribute of the model). -/
def runTypeErrorText : String :=
  "TypeError: requested_count is an invalid keyword argument for EmailRun"

/-- The text of the TypeError raised by the `EmailItem(...)` call at clean.py
lines 119-126 (`attempt_count` is not an attribute of the model). -/
def itemTypeErrorText : String :=
  "TypeError: attempt_count is an invalid keyword argument for EmailItem"

/-- The text of the AttributeError raised by reading `item.last_error` on a
row queried back from the database (clean.py lines 154 and 166). -/
def attributeErrorText : String :=
  "AttributeError: EmailItem object has no attribute last_error"

/-- The row the `EmailItem(...)` call of the ingestion loop (clean.py lines
119-126) would create.  The call itself never returns a row: the declarative
constructor rejects the `attempt_count`/`last_error` keywords (claim C1), which
`ingest` below models by raising instead of inserting. -/
def newItem (userId runId : Nat) (gmailId : String) : EmailItemR where
  user_id := userId
  run_id := runId
  gmail_message_id := gmailId
  status := ItemStatus.NEW
  category := none
  confidence := none
  reason := none
  attempt_count := 0
  last_error := none

/-- Ingestion loop body (clean.py lines 110-129): skip a falsy id, skip an id
already tracked for this user (the `existing_by_gmail_id` dict is built before
the loop and not updated inside it), otherwise append a NEW item and keep the
raw email for processing. -/
def ingestStep (userId runId : Nat) (existingIds : List String)
    (acc : List EmailItemR × List Email) (email : Email) : List EmailItemR × List Email :=
  if email.id = "" then acc
  else if email.id ∈ existingIds then acc
  else (acc.1 ++ [newItem userId runId email.id], acc.2 ++ [email])

/-- The ingestion loop (clean.py lines 110-129).  If at least one fetched
message survives the skip checks, the loop reaches the `EmailItem(...)`
constructor call, which raises TypeError because the declarative constructor
rejects the `attempt_count`/`last_error` keywords (claim C1); only when every
message is skipped does the loop finish, with nothing to insert. -/
def ingest (userId runId : Nat) (existingIds : List String) (emails : List Email) :
    Except String (List EmailItemR × List Email) :=
  let wouldBe := emails.foldl (ingestStep userId runId existingIds) ([], [])
  if wouldBe.2.isEmpty || declarativeInitOk EmailItemModelAttrs ingestItemKwargs then
    .ok wouldBe
  else
    .error itemTypeErrorText

/-- `db.commit()` of the inserted rows under the
`uq_email_items_user_gmail_message_id` unique constraint of database.py (all
rows here belong to one user): a violation raises IntegrityError and nothing
persists. -/
def commitInsert (existing inserted : List EmailItemR) : Option (List EmailItemR) :=
  if ((existing ++ inserted).map (fun i => i.gmail_message_id)).Nodup then
    some (existing ++ inserted)
  else none

/-- Claiming an item (clean.py lines 200-203): PROCESSING, increment
`attempt_count` (`(item.attempt_count or 0) + 1`), clear `last_error`. -/
def claimItem (i : EmailItemR) : EmailItemR :=
  { i with
      status := ItemStatus.PROCESSING
      attempt_count := i.attempt_count + 1
      last_error := none }

/-- Persisting one classification onto one item (clean.py lines 214-224 /
294-304): category/confidence/reason are stored; an ERROR category also sets
`last_error` to the reason or the pass's default message. -/
def applyClassItem (defaultErr : String) (it : EmailItemR) (c : Classification) :
    EmailItemR :=
  if it.gmail_message_id = c.email_id then
    { it with
        category := some c.category
        confidence := some c.confidence
        reason := some c.reason
        last_error := if c.category = "ERROR" then some (pyOrS (some c.reason) defaultErr)
          else it.last_error }
  else it

/-- One classification applied across the claimed items.  The Python loop looks
the item up in a dict keyed by gmail id; since claimed items have pairwise
distinct gmail ids (enforced by the unique constraint at insert time), updating
every matching list entry is the same operation. -/
def applyClassStep (defaultErr : String) (items : List EmailItemR) (c : Classification) :
    List EmailItemR :=
  items.map (fun it => applyClassItem defaultErr it c)

def applyClassifications (defaultErr : String) (cs : List Classification)
    (items : List EmailItemR) : List EmailItemR :=
  cs.foldl (applyClassStep defaultErr) items

/-- Retry-pass variant (clean.py lines 294-304): the lookup dict
`retry_items_by_id` contains only the re-claimed items, so only those are
updated. -/
def applyClassItemOn (allowedIds : List String) (defaultErr : String)
    (it : EmailItemR) (c : Classification) : EmailItemR :=
  if it.gmail_message_id ∈ allowedIds ∧ it.gmail_message_id = c.email_id then
    { it with
        category := some c.category
        confidence := some c.confidence
        reason := some c.reason
        last_error := if c.category = "ERROR" then some (pyOrS (some c.reason) defaultErr)
          else it.last_error }
  else it

def applyClassStepOn (allowedIds : List String) (defaultErr : String)
    (items : List EmailItemR) (c : Classification) : List EmailItemR :=
  items.map (fun it => applyClassItemOn allowedIds defaultErr it c)

def applyClassificationsOn (allowedIds : List String) (defaultErr : String)
    (cs : List Classification) (items : List EmailItemR) : List EmailItemR :=
  cs.foldl (applyClassStepOn allowedIds defaultErr) items

/-- Membership of a gmail id in the `success_ids` set built from the labeling
results (clean.py lines 257-266): results with a falsy email_id are skipped. -/
def inSuccessIds (lres : LabelResult) (gid : String) : Bool :=
  lres.results.any (fun r => r.email_id != "" && r.email_id == gid && r.success)

def inFailedIds (lres : LabelResult) (gid : String) : Bool :=
  lres.results.any (fun r => r.email_id != "" && r.email_id == gid && !r.success)

/-- First-pass reconciliation of one claimed item (clean.py lines 268-275).
Note the exact Python conditions: SUCCESS when the id is in `success_ids`;
otherwise FAILED only when the id is in `failed_ids` **or**
`labeling_error_message` is truthy — in every other case the item is left
untouched (still PROCESSING). -/
def reconcileItem (lres : LabelResult) (labelingErrorMessage : Option String)
    (it : EmailItemR) : EmailItemR :=
  if inSuccessIds lres it.gmail_message_id then
    { it with status := ItemStatus.SUCCESS, last_error := none }
  else if inFailedIds lres it.gmail_message_id || truthyS labelingErrorMessage then
    { it with
        status := ItemStatus.FAILED
        last_error := some (pyOrS labelingErrorMessage (pyOrS lres.error "Labeling failed")) }
  else it

def reconcile (lres : LabelResult) (labelingErrorMessage : Option String)
    (items : List EmailItemR) : List EmailItemR :=
  items.map (reconcileItem lres labelingErrorMessage)

/-- The collaborator behaviour of one classify+label pass during one
execution: oracle behaviour per sub-batch, the futures' completion order, and
the Gmail labeling behaviour (`labelFail = some e` means the
`apply_labels_batch` call raised with text `e`). -/
structure PassEnv where
  apiKey : String
  attempts : Nat → OracleAttempts
  order : List Nat
  labelFail : Option String
  labelIds : String → Option String
  chunkOk : String → Nat → Bool
  chunkErrMsg : String → Nat → String

/-- The dict synthesized when the first-pass labeling call raises
(clean.py lines 248-254). -/
def synthesizedFailure (n : Nat) (e : String) : LabelResult where
  success_count := 0
  failed_count := n
  results := []
  total := 0
  error := some e

/-- First-pass labeling call (clean.py lines 240-254): the error message and
the labeling-result dict actually used afterwards. -/
def runLabeling (env : PassEnv) (cs : List Classification) :
    Option String × LabelResult :=
  match env.labelFail with
  | some e => (some e, synthesizedFailure cs.length e)
  | none => (none, apply_labels_batch env.labelIds env.chunkOk env.chunkErrMsg cs)

def passClassifications (env : PassEnv) (emailsTP : List Email) : List Classification :=
  classify_emails_batch env.apiKey env.attempts env.order emailsTP

/-- Claimed items with their first-pass classification results persisted
(clean.py lines 200-224). -/
def firstPassPersisted (env : PassEnv) (items : List EmailItemR)
    (emailsTP : List Email) : List EmailItemR :=
  applyClassifications "LLM classification error" (passClassifications env emailsTP)
    (items.map claimItem)

/-- Claim → classify → persist → label → reconcile (clean.py lines 200-275);
returns the updated items and `labeling_error_message`. -/
def firstPass (env : PassEnv) (items : List EmailItemR) (emailsTP : List Email) :
    List EmailItemR × Option String :=
  let lr := runLabeling env (passClassifications env emailsTP)
  (reconcile lr.2 lr.1 (firstPassPersisted env items emailsTP), lr.1)

/-- `item.status == EmailItemStatus.FAILED and (item.attempt_count or 0) < 2`
(clean.py lines 278-281). -/
def isRetryTarget (i : EmailItemR) : Bool :=
  i.status == ItemStatus.FAILED && decide (i.attempt_count < 2)

def retrySelect (items : List EmailItemR) : List EmailItemR :=
  items.filter isRetryTarget

/-- The dict synthesized when the retry labeling call raises (clean.py line
310): only `results` and `error` keys exist; the count fields are modelled as
zero since the retry code never reads them. -/
def synthesizedRetryFailure (e : String) : LabelResult where
  success_count := 0
  failed_count := 0
  results := []
  total := 0
  error := some e

def retryLabeling (env : PassEnv) (cs : List Classification) :
    Option String × LabelResult :=
  match env.labelFail with
  | some e => (some e, synthesizedRetryFailure e)
  | none => (none, apply_labels_batch env.labelIds env.chunkOk env.chunkErrMsg cs)

/-- Retry reconciliation of one re-claimed item (clean.py lines 321-327):
SUCCESS if in the retry success set, otherwise unconditionally FAILED with the
first truthy of retry error / result error / previous last_error / default. -/
def retryReconcileItem (lres : LabelResult) (retryLabelError : Option String)
    (it : EmailItemR) : EmailItemR :=
  if inSuccessIds lres it.gmail_message_id then
    { it with status := ItemStatus.SUCCESS, last_error := none }
  else
    { it with
        status := ItemStatus.FAILED
        last_error := some (pyOrS retryLabelError (pyOrS lres.error
          (pyOrS it.last_error "Retry failed"))) }

/-- The retry pass (clean.py lines 277-328): select FAILED items with
attempt_count < 2, re-claim them, re-classify and persist exactly that subset,
re-label, and reconcile the selected items. -/
def retryPass (env : PassEnv) (items : List EmailItemR) (emailsTP : List Email) :
    List EmailItemR :=
  let retryIds := (retrySelect items).map (fun i => i.gmail_message_id)
  if retryIds.isEmpty then items
  else
    let retryEmails := emailsTP.filter (fun e => e.id ∈ retryIds)
    let items1 := items.map (fun i => if isRetryTarget i then claimItem i else i)
    let cs := classify_emails_batch env.apiKey env.attempts env.order retryEmails
    let items2 := applyClassificationsOn retryIds "LLM classification error (retry)" cs items1
    let lr := retryLabeling env cs
    items2.map (fun i =>
      if i.gmail_message_id ∈ retryIds then retryReconcileItem lr.2 lr.1 i else i)

/-- The whole per-item pipeline applied to the freshly ingested items:
first pass then retry pass; also returns `labeling_error_message`, which is
what gets stored on the run (clean.py line 339). -/
def processNewItems (env1 env2 : PassEnv) (items : List EmailItemR)
    (emailsTP : List Email) : List EmailItemR × Option String :=
  let fp := firstPass env1 items emailsTP
  (retryPass env2 fp.1 emailsTP, fp.2)

/-! ### Rollup and the full endpoint -/

/-- One entry of `classifications_from_db` (clean.py lines 148-155). -/
structure RollupClassification where
  email_id : String
  category : String
  confidence : Rat
  reason : String
deriving DecidableEq

def rollupClassOf (it : EmailItemR) : RollupClassification where
  email_id := it.gmail_message_id
  category := pyOrS it.category "UNKNOWN"
  confidence := it.confidence.getD 0
  reason := pyOrS it.reason (pyOrS it.last_error "")

/-- One entry of the rollup's labeling `results` (clean.py lines 161-169). -/
def rollupResultOf (it : EmailItemR) : LabelItemResult where
  email_id := it.gmail_message_id
  label := pyOrS it.category "UNKNOWN"
  success := it.status == ItemStatus.SUCCESS
  error := if it.status == ItemStatus.SUCCESS then none else some (pyOrS it.last_error "Failed")

/-- `build_rollup_for_fetched_emails` (clean.py lines 134-178): re-query all of
the user's items matching any fetched id and summarize them.  The summary loops
read `item.last_error` (lines 154 and 166) on rows queried back from the
database; the persisted `EmailItem` model declares no such attribute, so as
soon as the query returns at least one row the loop raises AttributeError. -/
def buildRollup (db : List EmailItemR) (emails : List Email) :
    Except String (List String × List RollupClassification × LabelResult) :=
  let fetchedIds := (emails.filter (fun e => e.id != "")).map (fun e => e.id)
  if fetchedIds.isEmpty then
    .ok ([], [],
      { success_count := 0, failed_count := 0, results := [], total := 0, error := none })
  else
    let items := db.filter (fun i => i.gmail_message_id ∈ fetchedIds)
    if items.isEmpty || EmailItemModelAttrs.contains "last_error" then
      .ok (fetchedIds, items.map rollupClassOf,
        { success_count := (items.filter (fun i => i.status == ItemStatus.SUCCESS)).length
          failed_count := (items.filter (fun i => i.status == ItemStatus.FAILED)).length
          results := items.map rollupResultOf
          total := items.length
          error := none })
    else
      .error attributeErrorText

/-- The response of `start_clean` (only the fields the claims are about;
`labeling` is absent on the `no_emails` path). -/
structure Rollup where
  actual_count : Nat
  emails : List Email
  classifications : List RollupClassification
  labeling : Option LabelResult
  status : String
deriving DecidableEq

def mkRollup (n : Nat) (emails : List Email) (cls : List RollupClassification)
    (lab : Option LabelResult) (status : String) : Rollup where
  actual_count := n
  emails := emails
  classifications := cls
  labeling := lab
  status := status

/-- The outcome of one `start_clean` execution: the successive values assigned
to `run.status` (in memory), the final `run.error`, the user's item rows, the
returned rollup (none if the request errored), and the surfaced exception. -/
structure CleanResult where
  statusTrace : List RunStatus
  runError : Option String
  db : List EmailItemR
  rollup : Option Rollup
  raised : Option String
deriving DecidableEq

/-- The text of the IntegrityError raised when the ingestion commit violates
the (user_id, gmail_message_id) unique constraint. -/
def integrityErrorText : String :=
  "UNIQUE constraint failed: email_items.user_id, email_items.gmail_message_id"

/-- The request-rejection result of the in-endpoint count check (clean.py
lines 55-60): an HTTPException raised before any Run row exists. -/
def countErrorResult (existing : List EmailItemR) : CleanResult :=
  { statusTrace := [], runError := none, db := existing, rollup := none,
    raised := some "Email count must be between 1 and 100" }

/-- The result of the `EmailRun(...)` constructor call at clean.py line 62
raising TypeError.  The call happens after the count check and before the
`try` block, so nothing handles it: no Run row exists, no status is ever
assigned, the item table is untouched, and the TypeError propagates out of
the endpoint. -/
def runTypeErrorResult (existing : List EmailItemR) : CleanResult :=
  { statusTrace := [], runError := none, db := existing, rollup := none,
    raised := some runTypeErrorText }

/-- The remainder of `start_clean` (clean.py lines 62-373) as it would run if
the `EmailRun` constructor returned: Run creation and the guarded pipeline —
fetch, ingestion (whose `EmailItem` constructor raises, caught by the `except`
handler at lines 356-366), commit, the two processing passes, the COMPLETED
commit, and the rollup (whose `last_error` reads raise after the COMPLETED
commit, turning the terminal status into FAILED). -/
def start_clean_body (env1 env2 : PassEnv) (userId runId : Nat)
    (existing : List EmailItemR) (fetchResult : Except String (List Email)) :
    CleanResult :=
  match fetchResult with
  | .error e =>
    { statusTrace := [RunStatus.NEW, RunStatus.PROCESSING, RunStatus.FAILED]
      runError := some e
      db := existing
      rollup := none
      raised := some ("Failed to process emails: " ++ e) }
  | .ok emails =>
    if emails.isEmpty then
      { statusTrace := [RunStatus.NEW, RunStatus.PROCESSING, RunStatus.COMPLETED]
        runError := none
        db := existing
        rollup := some (mkRollup 0 [] [] none "no_emails")
        raised := none }
    else
      match ingest userId runId (existing.map (fun i => i.gmail_message_id)) emails with
      | .error e =>
        { statusTrace := [RunStatus.NEW, RunStatus.PROCESSING, RunStatus.FAILED]
          runError := some e
          db := existing
          rollup := none
          raised := some ("Failed to process emails: " ++ e) }
      | .ok ing =>
        match commitInsert existing ing.1 with
        | none =>
          { statusTrace := [RunStatus.NEW, RunStatus.PROCESSING, RunStatus.FAILED]
            runError := some integrityErrorText
            db := existing
            rollup := none
            raised := some ("Failed to process emails: " ++ integrityErrorText) }
        | some db1 =>
          if ing.2.isEmpty then
            match buildRollup db1 emails with
            | .error e =>
              { statusTrace := [RunStatus.NEW, RunStatus.PROCESSING, RunStatus.COMPLETED,
                  RunStatus.FAILED]
                runError := some e
                db := db1
                rollup := none
                raised := some ("Failed to process emails: " ++ e) }
            | .ok r =>
              { statusTrace := [RunStatus.NEW, RunStatus.PROCESSING, RunStatus.COMPLETED]
                runError := none
                db := db1
                rollup := some (mkRollup r.1.length emails r.2.1 (some r.2.2) "completed")
                raised := none }
          else
            let pr := processNewItems env1 env2 ing.1 ing.2
            let db2 := existing ++ pr.1
            match buildRollup db2 emails with
            | .error e =>
              { statusTrace := [RunStatus.NEW, RunStatus.PROCESSING, RunStatus.COMPLETED,
                  RunStatus.FAILED]
                runError := some e
                db := db2
                rollup := none
                raised := some ("Failed to process emails: " ++ e) }
            | .ok r =>
              { statusTrace := [RunStatus.NEW, RunStatus.PROCESSING, RunStatus.COMPLETED]
                runError := pr.2
                db := db2
                rollup := some (mkRollup r.1.length emails r.2.1 (some r.2.2) "completed")
                raised := none }

/-- `start_clean` (clean.py lines 38-373).  After the user lookup and the
count check, line 62 constructs `EmailRun(user_id=..., requested_count=...,
status=NEW)`; the mapped `EmailRun` model declares no `requested_count`
attribute, so the declarative constructor raises TypeError there, outside the
`try` block — on every validated call the pipeline body above is never
entered. -/
def start_clean (env1 env2 : PassEnv) (userId runId : Nat) (existing : List EmailItemR)
    (count : Nat) (fetchResult : Except String (List Email)) : CleanResult :=
  if count < 1 ∨ 100 < count then
    countErrorResult existing
  else if declarativeInitOk EmailRunModelAttrs startRunKwargs then
    start_clean_body env1 env2 userId runId existing fetchResult
  else
    runTypeErrorResult existing



theorem chunksOfSuccAux_flatten (n : Nat) (fuel : Nat) (l : List α) :
    (chunksOfSuccAux n fuel l).flatten = l := by
  induction fuel generalizing l with
  | zero =>
    cases l with
    | nil => simp [chunksOfSuccAux]
    | cons x xs => simp [chunksOfSuccAux]
  | succ f ih =>
    cases l with
    | nil => simp [chunksOfSuccAux]
    | cons x xs =>
      simp only [chunksOfSuccAux, List.flatten_cons, List.cons_append, ih (xs.drop n),
        List.cons.injEq]
      exact ⟨trivial, List.take_append_drop n xs⟩

theorem chunksOfSucc_flatten (n : Nat) (l : List α) : (chunksOfSucc n l).flatten = l :=
  chunksOfSuccAux_flatten n l.length l

/-! ### Basic facts about the classification engine -/

theorem zip_processed_ids (batch : List Email) (recs : List JRecord) :
    ((batch.zip recs).map (fun p => processedOutcome p.1 p.2)).map (fun c => c.email_id)
      = (batch.take recs.length).map (fun e => e.id) := by
  induction batch generalizing recs with
  | nil => simp
  | cons x xs ih =>
    cases recs with
    | nil => simp
    | cons r rs =>
      have h := ih rs
      simp only [List.zip_cons_cons, List.map_cons, List.length_cons, List.take_succ_cons,
        List.cons.injEq]
      exact ⟨rfl, h⟩

theorem classify_single_batch_ids (apiKey : String) (attempts : OracleAttempts)
    (batch : List Email) :
    (classify_single_batch apiKey attempts batch).map (fun c => c.email_id)
      = batch.map (fun e => e.id) := by
  unfold classify_single_batch
  split
  · simp [errorOutcome]
  · split
    next e heq => simp [errorOutcome]
    next pe heq => simp [errorOutcome]
    next recs heq =>
      rw [List.map_append, zip_processed_ids]
      have hp : ((batch.drop recs.length).map paddingOutcome).map (fun c => c.email_id)
          = (batch.drop recs.length).map (fun e => e.id) := by
        rw [List.map_map]
        rfl
      rw [hp, ← List.map_append, List.take_append_drop]

theorem classify_single_batch_length (apiKey : String) (attempts : OracleAttempts)
    (batch : List Email) :
    (classify_single_batch apiKey attempts batch).length = batch.length := by
  have h := classify_single_batch_ids apiKey attempts batch
  have h1 := congrArg List.length h
  simpa using h1

theorem validateRecord_category (r : JRecord) :
    (validateRecord r).1 ∈ CATEGORY_KEYS := by
  cases r with
  | notDict => simp [validateRecord, CATEGORY_KEYS]
  | record cat conf reason =>
    simp only [validateRecord]
    split
    · next h => exact h
    · simp [CATEGORY_KEYS]

theorem classify_single_batch_category (apiKey : String) (attempts : OracleAttempts)
    (batch : List Email) (c : Classification)
    (hc : c ∈ classify_single_batch apiKey attempts batch) :
    c.category ∈ CATEGORY_KEYS ∨ c.category = "ERROR" := by
  unfold classify_single_batch at hc
  split at hc
  · rcases List.mem_map.1 hc with ⟨e, _, rfl⟩
    right; rfl
  · split at hc
    · rcases List.mem_map.1 hc with ⟨e, _, rfl⟩
      right; rfl
    · rcases List.mem_map.1 hc with ⟨e, _, rfl⟩
      right; rfl
    · rcases List.mem_append.1 hc with h | h
      · rcases List.mem_map.1 h with ⟨p, _, rfl⟩
        left; exact validateRecord_category p.2
      · rcases List.mem_map.1 h with ⟨e, _, rfl⟩
        left; simp [paddingOutcome, CATEGORY_KEYS]

theorem map_getD_range (l : List α) (d : α) :
    (List.range l.length).map (fun i => l.getD i d) = l := by
  induction l with
  | nil => simp
  | cons x xs ih =>
    rw [List.length_cons, List.range_succ_eq_map, List.map_cons, List.map_map]
    have h2 : ((fun i => (x :: xs).getD i d) ∘ Nat.succ) = (fun i => xs.getD i d) := rfl
    rw [h2, ih]
    rfl

theorem classify_emails_batch_ids_perm (apiKey : String) (attempts : Nat → OracleAttempts)
    (order : List Nat) (emails : List Email)
    (h : order.Perm (List.range (batchesOf20 emails).length)) :
    ((classify_emails_batch apiKey attempts order emails).map (fun c => c.email_id)).Perm
      (emails.map (fun e => e.id)) := by
  unfold classify_emails_batch
  split
  · next hemp =>
    rw [List.isEmpty_iff] at hemp
    subst hemp
    simp
  · rw [List.map_flatten, List.map_map]
    have hsingle : (List.map (fun c => c.email_id) ∘ fun i =>
        classify_single_batch apiKey (attempts i) ((batchesOf20 emails).getD i []))
        = (fun i => ((batchesOf20 emails).getD i []).map (fun e => e.id)) := by
      funext i
      exact classify_single_batch_ids apiKey (attempts i) _
    rw [hsingle, ← List.flatMap_def]
    have hperm := h.flatMap_right
      (fun i => ((batchesOf20 emails).getD i []).map (fun e => e.id))
    refine hperm.trans ?_
    rw [List.flatMap_def]
    have hrange : (List.range (batchesOf20 emails).length).map
          (fun i => ((batchesOf20 emails).getD i []).map (fun e => e.id))
        = (batchesOf20 emails).map (List.map (fun e => e.id)) := by
      rw [show (fun i => ((batchesOf20 emails).getD i []).map (fun e => e.id))
            = (List.map (fun e => e.id)) ∘ (fun i => (batchesOf20 emails).getD i []) from rfl,
        ← List.map_map, map_getD_range]
    rw [hrange, ← List.map_flatten, batchesOf20, chunksOfSucc_flatten]

theorem classify_emails_batch_length (apiKey : String) (attempts : Nat → OracleAttempts)
    (order : List Nat) (emails : List Email)
    (h : order.Perm (List.range (batchesOf20 emails).length)) :
    (classify_emails_batch apiKey attempts order emails).length = emails.length := by
  have hp := (classify_emails_batch_ids_perm apiKey attempts order emails h).length_eq
  simpa using hp

theorem classify_emails_batch_category (apiKey : String) (attempts : Nat → OracleAttempts)
    (order : List Nat) (emails : List Email) (c : Classification)
    (hc : c ∈ classify_emails_batch apiKey attempts order emails) :
    c.category ∈ CATEGORY_KEYS ∨ c.category = "ERROR" := by
  unfold classify_emails_batch at hc
  split at hc
  · simp at hc
  · rw [List.mem_flatten] at hc
    rcases hc with ⟨seg, hseg, hcseg⟩
    rcases List.mem_map.1 hseg with ⟨i, _, rfl⟩
    exact classify_single_batch_category _ _ _ _ hcseg

theorem classify_single_batch_padding (apiKey : String) (attempts : OracleAttempts)
    (batch : List Email) (recs : List JRecord)
    (hkey : apiKeyInvalid apiKey = false)
    (hres : oracleCallWithRetries attempts = .ok (.ok recs))
    (hshort : recs.length ≤ batch.length) :
    (classify_single_batch apiKey attempts batch).drop recs.length
      = (batch.drop recs.length).map paddingOutcome := by
  unfold classify_single_batch
  rw [hres]
  simp only [hkey, Bool.false_eq_true, if_false]
  have hA : ((batch.zip recs).map (fun p => processedOutcome p.1 p.2)).length = recs.length := by
    simp [List.length_zip, Nat.min_eq_right hshort]
  rw [← hA, List.drop_left]

/-- Claim C4: for every input list of N raw email records,
`classify_emails_batch` returns exactly N outcomes, each carrying the
corresponding item's remote id (the outcome ids are a permutation of the input
ids) and a category in the fixed taxonomy ∪ \x7bERROR\x7d; outcomes missing from a
short oracle response are padded with category UNKNOWN and confidence 0. -/
theorem claim_C4 (apiKey : String) (attempts : Nat → OracleAttempts)
    (order : List Nat) (emails : List Email)
    (horder : order.Perm (List.range (batchesOf20 emails).length))
    (batch : List Email) (attemptsS : OracleAttempts) (recs : List JRecord)
    (hkey : apiKeyInvalid apiKey = false)
    (hres : oracleCallWithRetries attemptsS = .ok (.ok recs))
    (hshort : recs.length ≤ batch.length) :
    (classify_emails_batch apiKey attempts order emails).length = emails.length
    ∧ ((classify_emails_batch apiKey attempts order emails).map (fun c => c.email_id)).Perm
        (emails.map (fun e => e.id))
    ∧ (∀ c ∈ classify_emails_batch apiKey attempts order emails,
        c.category ∈ CATEGORY_KEYS ∨ c.category = "ERROR")
    ∧ (classify_single_batch apiKey attemptsS batch).drop recs.length
        = (batch.drop recs.length).map paddingOutcome
    ∧ (∀ e : Email, (paddingOutcome e).category = "UNKNOWN" ∧ (paddingOutcome e).confidence = 0) := by
  refine ⟨classify_emails_batch_length apiKey attempts order emails horder,
    classify_emails_batch_ids_perm apiKey attempts order emails horder,
    fun c hc => classify_emails_batch_category apiKey attempts order emails c hc,
    classify_single_batch_padding apiKey attemptsS batch recs hkey hres hshort,
    fun e => ⟨rfl, rfl⟩⟩

theorem claim_C4_witness :
    ([0] : List Nat).Perm (List.range (batchesOf20 [em1]).length)
    ∧ apiKeyInvalid "sk-real" = false
    ∧ oracleCallWithRetries okEmptyAttempts = .ok (.ok [])
    ∧ (classify_emails_batch "sk-real" (fun _ => okEmptyAttempts) [0] [em1]).length
        = [em1].length := by
  have h := claim_C4 "sk-real" (fun _ => okEmptyAttempts) [0] [em1] (by decide)
    [em1] okEmptyAttempts [] (by decide) rfl (by decide)
  exact ⟨by decide, by decide, rfl, h.1⟩

theorem retries_exhausted_error (att : OracleAttempts) (msgs : Nat → String)
    (h : ∀ i, i ≤ 2 → att i = .error (msgs i) ∧ isRateLimitError (msgs i) = true) :
    oracleCallWithRetries att = .error (msgs 2) := by
  have h0 := h 0 (by omega)
  have h1 := h 1 (by omega)
  have h2 := h 2 (by omega)
  simp [oracleCallWithRetries, oracleRetryLoop, h0.1, h0.2, h1.1, h1.2, h2.1]

theorem non_rate_limit_error (att : OracleAttempts) (msg : String)
    (h0 : att 0 = .error msg) (hrl : isRateLimitError msg = false) :
    oracleCallWithRetries att = .error msg := by
  simp [oracleCallWithRetries, oracleRetryLoop, h0, hrl]

theorem classify_single_batch_error (apiKey : String) (attempts : OracleAttempts)
    (batch : List Email) (e : String)
    (hkey : apiKeyInvalid apiKey = false)
    (hfail : oracleCallWithRetries attempts = .error e) :
    classify_single_batch apiKey attempts batch = batch.map (errorOutcome e) := by
  unfold classify_single_batch
  rw [hfail]
  simp [hkey]

/-- Claim C8: if the oracle call for one classification sub-batch fails
irrecoverably (a non-rate-limit exception, or rate-limit retries exhausted),
every item of that sub-batch receives an ERROR outcome with confidence 0 and a
reason describing the failure; every other sub-batch's outcomes are computed
from its own oracle behaviour alone and still appear in the aggregate, which
keeps one outcome per input — classify never aborts as a whole. -/
theorem claim_C8 (apiKey : String) (attempts : Nat → OracleAttempts) (order : List Nat)
    (emails : List Email) (k : Nat) (e : String)
    (hkey : apiKeyInvalid apiKey = false)
    (hfail : oracleCallWithRetries (attempts k) = .error e)
    (horder : order.Perm (List.range (batchesOf20 emails).length)) :
    (∀ (att : OracleAttempts) (msgs : Nat → String),
      (∀ i, i ≤ 2 → att i = .error (msgs i) ∧ isRateLimitError (msgs i) = true) →
        oracleCallWithRetries att = .error (msgs 2))
    ∧ (∀ (att : OracleAttempts) (msg : String),
        att 0 = .error msg → isRateLimitError msg = false →
          oracleCallWithRetries att = .error msg)
    ∧ classify_single_batch apiKey (attempts k) ((batchesOf20 emails).getD k [])
        = ((batchesOf20 emails).getD k []).map (errorOutcome e)
    ∧ (∀ em : Email, (errorOutcome e em).category = "ERROR"
        ∧ (errorOutcome e em).confidence = 0
        ∧ (errorOutcome e em).reason = "Classification error: " ++ e)
    ∧ (k ∈ order → ∀ em ∈ (batchesOf20 emails).getD k [],
        errorOutcome e em ∈ classify_emails_batch apiKey attempts order emails)
    ∧ (∀ j ∈ order, ∀ c ∈ classify_single_batch apiKey (attempts j) ((batchesOf20 emails).getD j []),
        c ∈ classify_emails_batch apiKey attempts order emails)
    ∧ (∀ (attemptsAlt : Nat → OracleAttempts), (∀ j, j ≠ k → attemptsAlt j = attempts j) →
        ∀ j, j ≠ k →
          classify_single_batch apiKey (attemptsAlt j) ((batchesOf20 emails).getD j [])
            = classify_single_batch apiKey (attempts j) ((batchesOf20 emails).getD j []))
    ∧ (classify_emails_batch apiKey attempts order emails).length = emails.length := by
  have hmem : ∀ j ∈ order,
      ∀ c ∈ classify_single_batch apiKey (attempts j) ((batchesOf20 emails).getD j []),
      c ∈ classify_emails_batch apiKey attempts order emails := by
    intro j hj c hc
    unfold classify_emails_batch
    split
    · next hemp =>
      rw [List.isEmpty_iff] at hemp
      subst hemp
      have hord0 : order.Perm [] := by
        simpa [batchesOf20, chunksOfSucc, chunksOfSuccAux] using horder
      rw [hord0.eq_nil] at hj
      simp at hj
    · rw [List.mem_flatten]
      exact ⟨_, List.mem_map_of_mem _ hj, hc⟩
  refine ⟨retries_exhausted_error, non_rate_limit_error,
    classify_single_batch_error apiKey (attempts k) _ e hkey hfail,
    fun em => ⟨rfl, rfl, rfl⟩, ?_, hmem, ?_,
    classify_emails_batch_length apiKey attempts order emails horder⟩
  · intro hk em hem
    have hc : errorOutcome e em
        ∈ classify_single_batch apiKey (attempts k) ((batchesOf20 emails).getD k []) := by
      rw [classify_single_batch_error apiKey (attempts k) _ e hkey hfail]
      exact List.mem_map_of_mem _ hem
    exact hmem k hk _ hc
  · intro attemptsAlt halt j hj
    rw [halt j hj]

theorem claim_C8_witness :
    apiKeyInvalid "sk-real" = false
    ∧ oracleCallWithRetries failAttempts = .error "boom"
    ∧ ([0] : List Nat).Perm (List.range (batchesOf20 [em1]).length)
    ∧ classify_single_batch "sk-real" failAttempts ((batchesOf20 [em1]).getD 0 [])
        = ((batchesOf20 [em1]).getD 0 []).map (errorOutcome "boom") := by
  have h := claim_C8 "sk-real" (fun _ => failAttempts) [0] [em1] 0 "boom"
    (by decide) rfl (by decide)
  exact ⟨by decide, rfl, by decide, h.2.2.1⟩

theorem foldl_preserve {β γ : Type} (I : β → Prop) (f : β → γ → β) (l : List γ) (init : β)
    (h0 : I init) (hstep : ∀ b a, I b → I (f b a)) : I (l.foldl f init) := by
  induction l generalizing init with
  | nil => exact h0
  | cons x xs ih => exact ih _ (hstep _ _ h0)

theorem chunkSuccessResults_filter (labelName : String) (chunk : List String) :
    ((chunkSuccessResults labelName chunk).filter (fun r => r.success)).length = chunk.length
    ∧ ((chunkSuccessResults labelName chunk).filter (fun r => !r.success)).length = 0 := by
  induction chunk with
  | nil => simp [chunkSuccessResults]
  | cons x xs ih => simpa [chunkSuccessResults, List.filter] using ih

theorem chunkFailResults_filter (labelName msg : String) (chunk : List String) :
    ((chunkFailResults labelName msg chunk).filter (fun r => r.success)).length = 0
    ∧ ((chunkFailResults labelName msg chunk).filter (fun r => !r.success)).length
        = chunk.length := by
  induction chunk with
  | nil => simp [chunkFailResults]
  | cons x xs ih => simpa [chunkFailResults, List.filter] using ih

theorem labelFailResults_filter (labelName : String) (ids : List String) :
    ((ids.map (labelFailResult labelName)).filter (fun r => r.success)).length = 0
    ∧ ((ids.map (labelFailResult labelName)).filter (fun r => !r.success)).length
        = ids.length := by
  induction ids with
  | nil => simp
  | cons x xs ih => simpa [labelFailResult, List.filter] using ih

theorem applyChunks_ok (labelName : String) (chunkOk : String → Nat → Bool)
    (chunkErrMsg : String → Nat → String) (chunks : List (Nat × List String))
    (acc : LabelAcc) (h : labelAccOk acc) :
    labelAccOk (applyChunks labelName chunkOk chunkErrMsg chunks acc) := by
  unfold applyChunks
  refine foldl_preserve labelAccOk _ chunks acc h ?_
  intro a p hp
  unfold chunkStep
  split
  · constructor
    · simp [List.filter_append, hp.1, (chunkSuccessResults_filter labelName p.2).1]
    · simp [List.filter_append, hp.2, (chunkSuccessResults_filter labelName p.2).2]
  · constructor
    · simp [List.filter_append, hp.1, (chunkFailResults_filter labelName _ p.2).1]
    · simp [List.filter_append, hp.2, (chunkFailResults_filter labelName _ p.2).2]

theorem labelAccOk_sum (a : LabelAcc) (h : labelAccOk a) :
    a.success_count + a.failed_count = a.results.length := by
  rw [h.1, h.2, ← List.countP_eq_length_filter, ← List.countP_eq_length_filter]
  have hlen := List.length_eq_countP_add_countP (p := fun r : LabelItemResult => r.success)
    (l := a.results)
  simpa using hlen.symm

/-- Claim C10: every normally-returning `apply_labels_batch` outcome is
internally consistent: `success_count` counts the successful per-item results,
`failed_count` the unsuccessful ones, `total` is the length of the results
list, and `success_count + failed_count = total`. -/
theorem claim_C10 (labelIds : String → Option String) (chunkOk : String → Nat → Bool)
    (chunkErrMsg : String → Nat → String) (cs : List Classification) :
    (apply_labels_batch labelIds chunkOk chunkErrMsg cs).success_count
      = (((apply_labels_batch labelIds chunkOk chunkErrMsg cs).results.filter
          (fun r => r.success)).length)
    ∧ (apply_labels_batch labelIds chunkOk chunkErrMsg cs).failed_count
      = (((apply_labels_batch labelIds chunkOk chunkErrMsg cs).results.filter
          (fun r => !r.success)).length)
    ∧ (apply_labels_batch labelIds chunkOk chunkErrMsg cs).total
      = (apply_labels_batch labelIds chunkOk chunkErrMsg cs).results.length
    ∧ (apply_labels_batch labelIds chunkOk chunkErrMsg cs).success_count
        + (apply_labels_batch labelIds chunkOk chunkErrMsg cs).failed_count
      = (apply_labels_batch labelIds chunkOk chunkErrMsg cs).total := by
  have hacc : labelAccOk ((groupByLabel cs).foldl (labelGroupStep labelIds chunkOk chunkErrMsg)
      { success_count := 0, failed_count := 0, results := [] }) := by
    refine foldl_preserve labelAccOk _ _ _ ⟨rfl, rfl⟩ ?_
    intro a g hg
    unfold labelGroupStep
    split
    · constructor
      · simp [List.filter_append, hg.1, (labelFailResults_filter g.1 g.2).1]
      · simp [List.filter_append, hg.2, (labelFailResults_filter g.1 g.2).2]
    · exact applyChunks_ok g.1 chunkOk chunkErrMsg _ a hg
  exact ⟨hacc.1, hacc.2, rfl, labelAccOk_sum _ hacc⟩

theorem insertGrouped_mem_self (acc : List (String × List String)) (name id : String) :
    id ∈ groupIds (insertGrouped acc name id) := by
  unfold insertGrouped groupIds
  split
  · next hany =>
    rw [List.any_eq_true] at hany
    rcases hany with ⟨g, hg, hgname⟩
    rw [List.mem_flatMap]
    refine ⟨(g.1, g.2 ++ [id]), ?_, by simp⟩
    rw [List.mem_map]
    exact ⟨g, hg, by rw [if_pos (by simpa using hgname)]⟩
  · rw [List.mem_flatMap]
    exact ⟨(name, [id]), by simp, by simp⟩

theorem insertGrouped_mem_mono (acc : List (String × List String)) (name id x : String)
    (hx : x ∈ groupIds acc) : x ∈ groupIds (insertGrouped acc name id) := by
  unfold groupIds at hx
  rw [List.mem_flatMap] at hx
  rcases hx with ⟨g, hg, hxg⟩
  unfold insertGrouped groupIds
  split
  · rw [List.mem_flatMap]
    by_cases hname : g.1 = name
    · exact ⟨(g.1, g.2 ++ [id]), List.mem_map.2 ⟨g, hg, by rw [if_pos hname]⟩, by simp [hxg]⟩
    · exact ⟨g, List.mem_map.2 ⟨g, hg, by rw [if_neg hname]⟩, hxg⟩
  · rw [List.mem_flatMap]
    exact ⟨g, List.mem_append_left _ hg, hxg⟩

theorem groupFold_cover (cs : List Classification) (acc : List (String × List String))
    (x : String)
    (hx : x ∈ groupIds acc ∨ ∃ c ∈ cs, c.email_id = x ∧ x ≠ "") :
    x ∈ groupIds (cs.foldl groupStep acc) := by
  induction cs generalizing acc with
  | nil =>
    rcases hx with h | ⟨c, hc, _⟩
    · exact h
    · simp at hc
  | cons c rest ih =>
    rw [List.foldl_cons]
    rcases hx with h | ⟨d, hd, hdx, hxne⟩
    · refine ih _ (Or.inl ?_)
      unfold groupStep
      split
      · exact h
      · exact insertGrouped_mem_mono _ _ _ _ h
    · rcases List.mem_cons.1 hd with rfl | hdrest
      · refine ih _ (Or.inl ?_)
        unfold groupStep
        rw [if_neg (by rw [hdx]; exact hxne)]
        exact hdx ▸ insertGrouped_mem_self acc (get_label_name d.category) d.email_id
      · exact ih _ (Or.inr ⟨d, hdrest, hdx, hxne⟩)

theorem groupByLabel_cover (cs : List Classification) (c : Classification)
    (hc : c ∈ cs) (hne : c.email_id ≠ "") :
    c.email_id ∈ groupIds (groupByLabel cs) :=
  groupFold_cover cs [] c.email_id (Or.inr ⟨c, hc, rfl, hne⟩)

theorem chunkFold_results (labelName : String) (chunkOk : String → Nat → Bool)
    (chunkErrMsg : String → Nat → String) (chunks : List (Nat × List String))
    (acc : LabelAcc) :
    (chunks.foldl (chunkStep labelName chunkOk chunkErrMsg) acc).results
      = acc.results ++ chunks.flatMap (fun p =>
          if chunkOk labelName p.1 then chunkSuccessResults labelName p.2
          else chunkFailResults labelName (chunkErrMsg labelName p.1) p.2) := by
  induction chunks generalizing acc with
  | nil => simp
  | cons p rest ih =>
    rw [List.foldl_cons, ih, List.flatMap_cons, ← List.append_assoc]
    congr 1
    unfold chunkStep
    split
    · rfl
    · rfl

theorem groupFold_results (labelIds : String → Option String)
    (chunkOk : String → Nat → Bool) (chunkErrMsg : String → Nat → String)
    (groups : List (String × List String)) (acc : LabelAcc) :
    (groups.foldl (labelGroupStep labelIds chunkOk chunkErrMsg) acc).results
      = acc.results ++ groups.flatMap (groupResults labelIds chunkOk chunkErrMsg) := by
  induction groups generalizing acc with
  | nil => simp
  | cons g rest ih =>
    rw [List.foldl_cons, ih, List.flatMap_cons, ← List.append_assoc]
    congr 1
    unfold labelGroupStep groupResults
    split
    · rfl
    · exact chunkFold_results g.1 chunkOk chunkErrMsg _ acc

theorem apply_labels_batch_results (labelIds : String → Option String)
    (chunkOk : String → Nat → Bool) (chunkErrMsg : String → Nat → String)
    (cs : List Classification) :
    (apply_labels_batch labelIds chunkOk chunkErrMsg cs).results
      = (groupByLabel cs).flatMap (groupResults labelIds chunkOk chunkErrMsg) := by
  show ((groupByLabel cs).foldl (labelGroupStep labelIds chunkOk chunkErrMsg)
      { success_count := 0, failed_count := 0, results := [] }).results = _
  rw [groupFold_results]
  rfl

theorem chunkResults_cover (labelName : String) (chunkOk : String → Nat → Bool)
    (chunkErrMsg : String → Nat → String) (n : Nat) (chunks : List (List String))
    (x : String) (hx : x ∈ chunks.flatten) :
    ∃ r ∈ (List.enumFrom n chunks).flatMap (fun p =>
        if chunkOk labelName p.1 then chunkSuccessResults labelName p.2
        else chunkFailResults labelName (chunkErrMsg labelName p.1) p.2),
      r.email_id = x := by
  induction chunks generalizing n with
  | nil => simp at hx
  | cons ch rest ih =>
    rw [List.flatten_cons, List.mem_append] at hx
    rw [List.enumFrom_cons, List.flatMap_cons]
    rcases hx with hx | hx
    · by_cases hok : chunkOk labelName n
      · refine ⟨(⟨x, labelName, true, none⟩ : LabelItemResult),
          List.mem_append_left _ ?_, rfl⟩
        rw [if_pos hok]
        exact List.mem_map.2 ⟨x, hx, rfl⟩
      · refine ⟨(⟨x, labelName, false, some (chunkErrMsg labelName n)⟩ : LabelItemResult),
          List.mem_append_left _ ?_, rfl⟩
        rw [if_neg hok]
        exact List.mem_map.2 ⟨x, hx, rfl⟩
    · rcases ih (n + 1) hx with ⟨r, hr, hrx⟩
      exact ⟨r, List.mem_append_right _ hr, hrx⟩

theorem groupResults_cover (labelIds : String → Option String)
    (chunkOk : String → Nat → Bool) (chunkErrMsg : String → Nat → String)
    (g : String × List String) (x : String) (hx : x ∈ g.2) :
    ∃ r ∈ groupResults labelIds chunkOk chunkErrMsg g, r.email_id = x := by
  unfold groupResults
  split
  · exact ⟨labelFailResult g.1 x, List.mem_map_of_mem _ hx, rfl⟩
  · have hx2 : x ∈ (chunksOfSucc 999 g.2).flatten := by
      rw [chunksOfSucc_flatten]; exact hx
    exact chunkResults_cover g.1 chunkOk chunkErrMsg 0 (chunksOfSucc 999 g.2) x hx2

theorem apply_labels_batch_cover (labelIds : String → Option String)
    (chunkOk : String → Nat → Bool) (chunkErrMsg : String → Nat → String)
    (cs : List Classification) (c : Classification)
    (hc : c ∈ cs) (hne : c.email_id ≠ "") :
    ∃ r ∈ (apply_labels_batch labelIds chunkOk chunkErrMsg cs).results,
      r.email_id = c.email_id := by
  rw [apply_labels_batch_results]
  have hid := groupByLabel_cover cs c hc hne
  unfold groupIds at hid
  rw [List.mem_flatMap] at hid
  rcases hid with ⟨g, hg, hxg⟩
  rcases groupResults_cover labelIds chunkOk chunkErrMsg g _ hxg with ⟨r, hr, hrx⟩
  exact ⟨r, List.mem_flatMap.2 ⟨g, hg, hr⟩, hrx⟩

/-! ### Claim C1 -/

/-- Claim C1 (code bug): the ingestion code constructs
`EmailItem(..., attempt_count=0, last_error=None)`, but the persisted
`EmailItem` model of database.py declares neither an `attempt_count` nor a
`last_error` attribute, so SQLAlchemy's declarative constructor rejects the
call with a `TypeError` — constructing such an Item does not succeed against
the persisted model, for any clean call that ingests at least one new
message. -/
theorem claim_C1 :
    declarativeInitOk EmailItemModelAttrs ingestItemKwargs = false
    ∧ "attempt_count" ∉ EmailItemModelAttrs
    ∧ "last_error" ∉ EmailItemModelAttrs
    ∧ "attempt_count" ∈ ingestItemKwargs
    ∧ "last_error" ∈ ingestItemKwargs := by
  refine ⟨rfl, ?_, ?_, ?_, ?_⟩ <;> decide

/-! ### The orchestrator claims: every validated call crashes constructing the Run -/

/-- Every execution of `start_clean` ends in one of the two pre-pipeline
results: the count rejection, or the `EmailRun` constructor TypeError at
clean.py line 62 (`declarativeInitOk EmailRunModelAttrs startRunKwargs`
computes to `false`, so the pipeline body is unreachable). -/
theorem start_clean_eq (env1 env2 : PassEnv) (userId runId : Nat)
    (existing : List EmailItemR) (count : Nat)
    (fetchResult : Except String (List Email)) :
    start_clean env1 env2 userId runId existing count fetchResult
      = countErrorResult existing
    ∨ start_clean env1 env2 userId runId existing count fetchResult
      = runTypeErrorResult existing := by
  unfold start_clean
  by_cases h : count < 1 ∨ 100 < count
  · left
    rw [if_pos h]
  · right
    rw [if_neg h]
    rw [show declarativeInitOk EmailRunModelAttrs startRunKwargs = false from rfl]
    rfl

/-- Claim C2 (confirmed, vacuously): (user, gmail_message_id) uniqueness is
preserved by every clean invocation, and a call whose fetch result contains an
already-tracked message id never creates a second item for it.  Every
validated call raises TypeError constructing the EmailRun (clean.py line 62,
claim C3) before anything is fetched or ingested, so the item table is never
touched at all: per-id item counts are unchanged and id-uniqueness of the
table is exactly preserved. -/
theorem claim_C2 (env1 env2 : PassEnv) (userId runId : Nat)
    (existing : List EmailItemR) (count : Nat)
    (fetchResult : Except String (List Email)) :
    (start_clean env1 env2 userId runId existing count fetchResult).db = existing
    ∧ (∀ M : String,
        ((start_clean env1 env2 userId runId existing count fetchResult).db.filter
            (fun i => i.gmail_message_id = M)).length
          = (existing.filter (fun i => i.gmail_message_id = M)).length)
    ∧ (((start_clean env1 env2 userId runId existing count fetchResult).db.map
          (fun i => i.gmail_message_id)).Nodup
        = ((existing.map (fun i => i.gmail_message_id)).Nodup))
    ∧ (start_clean env1 env2 userId runId existing count fetchResult).raised.isSome
        = true := by
  rcases start_clean_eq env1 env2 userId runId existing count fetchResult with h | h <;>
    rw [h] <;> exact ⟨rfl, fun M => rfl, rfl, rfl⟩

/-- Claim C3 (code bug): the claimed Run lifecycle never occurs.  The
`EmailRun(user_id=..., requested_count=..., status=NEW)` call at clean.py
line 62 passes `requested_count`, which the mapped `EmailRun` model of
database.py does not declare, so SQLAlchemy's declarative constructor raises
TypeError before any Run row exists -- and the call sits outside the `try`
block, so nothing handles it.  Every validated execution of `start_clean`
therefore has an empty status trace: the Run never becomes PROCESSING and
never reaches a terminal status even once, refuting the claimed
NEW -> PROCESSING -> (COMPLETED | FAILED) progression with exactly one
terminal status. -/
theorem claim_C3 :
    declarativeInitOk EmailRunModelAttrs startRunKwargs = false
    ∧ "requested_count" ∈ startRunKwargs
    ∧ "requested_count" ∉ EmailRunModelAttrs
    ∧ ∀ (env1 env2 : PassEnv) (userId runId : Nat) (existing : List EmailItemR)
        (count : Nat) (fetchResult : Except String (List Email)),
        (start_clean env1 env2 userId runId existing count fetchResult).statusTrace
          = [] := by
  refine ⟨rfl, by decide, by decide, ?_⟩
  intro env1 env2 userId runId existing count fetchResult
  rcases start_clean_eq env1 env2 userId runId existing count fetchResult with h | h <;>
    rw [h] <;> rfl

/-- Claim C5 (code bug): the claimed labeling-failure containment never
happens, because no execution ever reaches the labeling call.  Every validated
call raises TypeError constructing the EmailRun at clean.py line 62, so the
Run never ends COMPLETED, `run.error` is never set to any labeling error
text, and no rollup is returned: the error-handling behaviour the claim
describes is behaviour of unreachable code. -/
theorem claim_C5 :
    declarativeInitOk EmailRunModelAttrs startRunKwargs = false
    ∧ ∀ (env1 env2 : PassEnv) (userId runId : Nat) (existing : List EmailItemR)
        (count : Nat) (fetchResult : Except String (List Email)),
        (start_clean env1 env2 userId runId existing count
            fetchResult).statusTrace.contains RunStatus.COMPLETED = false
        ∧ (start_clean env1 env2 userId runId existing count fetchResult).runError
          = none
        ∧ (start_clean env1 env2 userId runId existing count fetchResult).rollup
          = none := by
  refine ⟨rfl, ?_⟩
  intro env1 env2 userId runId existing count fetchResult
  rcases start_clean_eq env1 env2 userId runId existing count fetchResult with h | h <;>
    rw [h] <;> exact ⟨rfl, rfl, rfl⟩

/-- Claim C6 (code bug): the claimed retry and attempt-count behaviour never
happens.  `attempt_count` is not an attribute of the persisted `EmailItem`
model (it is only a keyword the ingestion constructor call passes, which makes
that call raise -- claim C1), and every validated call already raises
TypeError constructing the EmailRun at clean.py line 62, so no clean
invocation ever creates, claims, or retries an item: the item table, and
every attempt counter in it, is left exactly as it was. -/
theorem claim_C6 :
    EmailItemModelAttrs.contains "attempt_count" = false
    ∧ ingestItemKwargs.contains "attempt_count" = true
    ∧ ∀ (env1 env2 : PassEnv) (userId runId : Nat) (existing : List EmailItemR)
        (count : Nat) (fetchResult : Except String (List Email)),
        (start_clean env1 env2 userId runId existing count fetchResult).db.map
            (fun i => i.attempt_count)
          = existing.map (fun i => i.attempt_count)
        ∧ (start_clean env1 env2 userId runId existing count fetchResult).db.length
          = existing.length := by
  refine ⟨by decide, by decide, ?_⟩
  intro env1 env2 userId runId existing count fetchResult
  rcases start_clean_eq env1 env2 userId runId existing count fetchResult with h | h <;>
    rw [h] <;> exact ⟨rfl, rfl⟩

/-- Claim C7 (code bug): no clean call ever returns a rollup.  Every validated
call raises TypeError constructing the EmailRun at clean.py line 62, so
`build_rollup_for_fetched_emails` is never reached; moreover the rollup code
itself reads `item.last_error` (clean.py lines 154 and 166) on rows queried
back from the database, an attribute the persisted `EmailItem` model does not
declare, so even run directly on a single tracked row it raises
AttributeError instead of producing the summary. -/
theorem claim_C7 :
    EmailItemModelAttrs.contains "last_error" = false
    ∧ buildRollup [newItem 1 1 "m1"] [em1] = Except.error attributeErrorText
    ∧ ∀ (env1 env2 : PassEnv) (userId runId : Nat) (existing : List EmailItemR)
        (count : Nat) (fetchResult : Except String (List Email)),
        (start_clean env1 env2 userId runId existing count fetchResult).rollup
          = none := by
  refine ⟨by decide, rfl, ?_⟩
  intro env1 env2 userId runId existing count fetchResult
  rcases start_clean_eq env1 env2 userId runId existing count fetchResult with h | h <;>
    rw [h] <;> rfl

/-- Claim C9 (code bug): reconciliation never runs.  Every validated call
raises TypeError constructing the EmailRun at clean.py line 62 -- before any
item is claimed -- so no clean invocation ever moves any item to SUCCESS or
FAILED (or even to PROCESSING): item statuses are left exactly as they were,
and the per-item reconciliation outcome the claim describes is behaviour of
unreachable code. -/
theorem claim_C9 :
    declarativeInitOk EmailRunModelAttrs startRunKwargs = false
    ∧ startRunKwargs.contains "requested_count" = true
    ∧ ∀ (env1 env2 : PassEnv) (userId runId : Nat) (existing : List EmailItemR)
        (count : Nat) (fetchResult : Except String (List Email)),
        (start_clean env1 env2 userId runId existing count fetchResult).db.map
            (fun i => i.status)
          = existing.map (fun i => i.status)
        ∧ (start_clean env1 env2 userId runId existing count fetchResult).raised.isSome
          = true := by
  refine ⟨rfl, by decide, ?_⟩
  intro env1 env2 userId runId existing count fetchResult
  rcases start_clean_eq env1 env2 userId runId existing count fetchResult with h | h <;>
    rw [h] <;> exact ⟨rfl, rfl⟩

end EmailClean

